import Mathlib

/-!
# Verification of the Povy sandbox payment backend

Shallow embedding of `src/backend/server.js` (Express + Mongoose sandbox
banking API).  JavaScript numbers are modelled as rationals (`ℚ`): every
value representable in the model is finite, so the `Number.isFinite` guards
of the source reduce to the sign checks that follow them.  The MongoDB
collections are modelled as Lean lists inside a `DB` state record; a
`findOne` is `List.find?`, a `save` rewrites the matching document, and a
`Transaction.create` conses onto the ledger (newest first, matching the
`createdAt`-descending history query).  The recorder's possible persistence
failure (the `try/catch` in `registerTransaction`, lines 98–112) is modelled
by a boolean `recOk` parameter: `false` means `Transaction.create` threw.
-/

namespace Povy

/-- Nested card value object (`accountSchema.card`, lines 35–40). -/
structure Card where
  cardNumber : String
  expMonth : String
  expYear : String
  cvv : String
  deriving DecidableEq, Repr

/-- An account document (`accountSchema`, lines 29–43). -/
structure Account where
  accountNumber : String
  ownerName : String
  balance : ℚ
  currency : String
  card : Card
  deriving DecidableEq, Repr

/-- The `type` field of a ledger entry (`transactionSchema.type` enum,
line 48). -/
inductive TxType where
  | debit
  | credit
  deriving DecidableEq, Repr

/-- A ledger entry (`transactionSchema`, lines 45–58).  `transactionId` is
optional: payment flows pass one, `manual_topup` does not. -/
structure LedgerEntry where
  accountNumber : String
  type : TxType
  amount : ℚ
  currency : String
  description : String
  source : String
  transactionId : Option String
  balanceAfter : ℚ
  merchantName : String
  deriving DecidableEq, Repr

/-- The persistent state: the two MongoDB collections.  `transactions` is
kept newest-first, so `Transaction.create` is a cons. -/
structure DB where
  accounts : List Account
  transactions : List LedgerEntry
  deriving DecidableEq, Repr

/-- The distinct failure responses of the source (each `res.status(4xx)`
branch). -/
inductive PayError where
  | MissingFields
  | AccountNotFound
  | InvalidAmount
  | CardNotFound
  | CardAuthenticationFailed
  | UnsupportedCurrency
  | ConflictBalanceFields
  | InvalidBalance
  deriving DecidableEq, Repr

/-- The HTTP status code attached to each failure response in the source. -/
def PayError.httpStatus : PayError → Nat
  | .MissingFields => 400
  | .AccountNotFound => 404
  | .InvalidAmount => 400
  | .CardNotFound => 404
  | .CardAuthenticationFailed => 400
  | .UnsupportedCurrency => 400
  | .ConflictBalanceFields => 400
  | .InvalidBalance => 400

/-- The `message` string of each failure response in the source. -/
def PayError.message : PayError → String
  | .MissingFields => "Faltan datos obligatorios."
  | .AccountNotFound => "Cuenta no encontrada."
  | .InvalidAmount => "Monto inválido."
  | .CardNotFound => "Tarjeta no encontrada."
  | .CardAuthenticationFailed => "Datos de tarjeta inválidos."
  | .UnsupportedCurrency => "Moneda no soportada. Usa USD, MXN o JPY."
  | .ConflictBalanceFields => "Usa balance (establecer) o addBalance (sumar), no ambos."
  | .InvalidBalance => "Saldo inválido."

/-- Response body of `POST /api/payments` (lines 332–341). -/
structure PaymentResult where
  status : String
  transactionId : String
  message : String
  amount : ℚ
  currency : String
  description : String
  accountNumber : String
  remainingBalance : ℚ
  deriving DecidableEq, Repr

/-- Response body of `POST /api/payments/card` (lines 429–439): the account
payment shape plus `cardLast4`.  Note the structure carries no full card
number, expiry or CVV field. -/
structure CardPaymentResult where
  status : String
  transactionId : String
  message : String
  amount : ℚ
  currency : String
  description : String
  accountNumber : String
  cardLast4 : String
  remainingBalance : ℚ
  deriving DecidableEq, Repr

/-- Request body of `POST /api/payments` (line 277).  `none` models a
missing (`undefined`/`null`) field. -/
structure PaymentRequest where
  accountNumber : Option String
  amount : Option ℚ
  currency : Option String
  description : Option String
  merchantName : Option String
  deriving DecidableEq, Repr

/-- Request body of `POST /api/payments/card` (lines 353–354). -/
structure CardPaymentRequest where
  cardNumber : Option String
  expMonth : Option String
  expYear : Option String
  cvv : Option String
  amount : Option ℚ
  currency : Option String
  description : Option String
  merchantName : Option String
  deriving DecidableEq, Repr

/-- Request body of `PATCH /api/accounts/:accountNumber` (line 192). -/
structure AdjustRequest where
  currency : Option String
  balance : Option ℚ
  addBalance : Option ℚ
  deriving DecidableEq, Repr

/-- The `allowedCurrencies` list (line 64). -/
def allowedCurrencies : List String := ["USD", "MXN", "JPY"]

/-- JavaScript `a || b` on an optional string: missing or empty falls back
to the default (used for `currency || account.currency` etc.). -/
def jsOrStr (v : Option String) (d : String) : String :=
  match v with
  | some s => if s = "" then d else s
  | none => d

/-- The card-number normalisation `String(cardNumber).replace(/\s+/g, '')`
of line 370: every whitespace character is removed. -/
def stripWhitespace (s : String) : String :=
  String.mk (s.data.filter (fun c => !c.isWhitespace))

/-- JavaScript `s.slice(-4)` on a string (line 437): the last four
characters (the whole string when it is shorter). -/
def sliceLast4 (s : String) : String :=
  String.mk (s.data.drop (s.data.length - 4))

/-- Model of `Account.findOne` by account number (lines 195, 287). -/
def findAccount (db : DB) (accNo : String) : Option Account :=
  db.accounts.find? (fun a => a.accountNumber == accNo)

/-- Model of `Account.findOne` by nested card number (line 373). -/
def findAccountByCard (db : DB) (cardNo : String) : Option Account :=
  db.accounts.find? (fun a => a.card.cardNumber == cardNo)

/-- Model of `account.save`: persist the in-memory document, replacing the stored
document with the same `accountNumber`. -/
def saveAccount (db : DB) (a : Account) : DB :=
  { db with accounts :=
      db.accounts.map (fun b => if b.accountNumber == a.accountNumber then a else b) }

/-- The stored balance of an account, as read back from the store. -/
def getBalance (db : DB) (accNo : String) : Option ℚ :=
  (findAccount db accNo).map (fun a => a.balance)

/-- Model of `registerTransaction` (lines 87–113): a best-effort
`Transaction.create` whose failure (`recOk = false`) is caught and logged,
leaving the ledger unchanged and raising nothing. -/
def registerTransaction (recOk : Bool) (db : DB) (e : LedgerEntry) : DB :=
  if recOk then { db with transactions := e :: db.transactions } else db

/-- Model of `POST /api/payments` (lines 276–349): pay by account number.  Returns
the post-call store together with either a failure response or the payment
result.  `now` models `Date.now()`. -/
def payByAccountNumber (recOk : Bool) (now : Nat) (req : PaymentRequest) (db : DB) :
    DB × Except PayError PaymentResult :=
  match req.accountNumber, req.amount with
  | some accNo, some amount =>
    if accNo = "" then (db, Except.error PayError.MissingFields)
    else
      match findAccount db accNo with
      | none => (db, Except.error PayError.AccountNotFound)
      | some account =>
        if amount ≤ 0 then (db, Except.error PayError.InvalidAmount)
        else
          let declined := amount > account.balance
          let account1 :=
            if declined then account else { account with balance := account.balance - amount }
          let db1 := if declined then db else saveAccount db account1
          let transactionId := "POVY-" ++ toString now
          let entry : LedgerEntry :=
            { accountNumber := account.accountNumber
              type := TxType.debit
              amount := amount
              currency := jsOrStr req.currency account.currency
              description := jsOrStr req.description "Pago de prueba por número de cuenta"
              source := "account_payment"
              transactionId := some transactionId
              balanceAfter := account1.balance
              merchantName := jsOrStr req.merchantName "Povy Test" }
          let db2 := registerTransaction recOk db1 entry
          (db2, Except.ok
            { status := if declined then "declined" else "approved"
              transactionId := transactionId
              message :=
                if declined then "Fondos insuficientes en la cuenta." else "Pago aprobado."
              amount := amount
              currency := jsOrStr req.currency account.currency
              description := jsOrStr req.description "Pago de prueba"
              accountNumber := account.accountNumber
              remainingBalance := account1.balance })
  | _, _ => (db, Except.error PayError.MissingFields)

/-- Model of `POST /api/payments/card` (lines 352–447): pay by card.  Identical
orchestration to `payByAccountNumber`, but resolution is by whitespace-
stripped card number, and month/year/CVV must string-match the stored card
before any further processing. -/
def payByCard (recOk : Bool) (now : Nat) (req : CardPaymentRequest) (db : DB) :
    DB × Except PayError CardPaymentResult :=
  match req.cardNumber, req.expMonth, req.expYear, req.cvv, req.amount with
  | some cn, some em, some ey, some cv, some amount =>
    if cn = "" ∨ em = "" ∨ ey = "" ∨ cv = "" then (db, Except.error PayError.MissingFields)
    else
      let cleanCardNumber := stripWhitespace cn
      match findAccountByCard db cleanCardNumber with
      | none => (db, Except.error PayError.CardNotFound)
      | some account =>
        if account.card.expMonth ≠ em ∨ account.card.expYear ≠ ey ∨ account.card.cvv ≠ cv then
          (db, Except.error PayError.CardAuthenticationFailed)
        else if amount ≤ 0 then (db, Except.error PayError.InvalidAmount)
        else
          let declined := amount > account.balance
          let account1 :=
            if declined then account else { account with balance := account.balance - amount }
          let db1 := if declined then db else saveAccount db account1
          let transactionId := "POVY-CARD-" ++ toString now
          let entry : LedgerEntry :=
            { accountNumber := account.accountNumber
              type := TxType.debit
              amount := amount
              currency := jsOrStr req.currency account.currency
              description := jsOrStr req.description "Pago de prueba con tarjeta"
              source := "card_payment"
              transactionId := some transactionId
              balanceAfter := account1.balance
              merchantName := jsOrStr req.merchantName "Povy Test" }
          let db2 := registerTransaction recOk db1 entry
          (db2, Except.ok
            { status := if declined then "declined" else "approved"
              transactionId := transactionId
              message :=
                if declined then "Fondos insuficientes en la cuenta." else "Pago aprobado."
              amount := amount
              currency := jsOrStr req.currency account.currency
              description := jsOrStr req.description "Pago de prueba con tarjeta"
              accountNumber := account.accountNumber
              cardLast4 := sliceLast4 account.card.cardNumber
              remainingBalance := account1.balance })
  | _, _, _, _, _ => (db, Except.error PayError.MissingFields)

/-- The in-memory effect of `if (currency) account.currency = currency`
(lines 201–208): a truthy (present, non-empty) currency is written onto the
document. -/
def applyCurrency (c : Option String) (acct : Account) : Account :=
  match c with
  | some s => if s = "" then acct else { acct with currency := s }
  | none => acct

/-- The rejection test of lines 202–206: a truthy currency outside
`allowedCurrencies` is refused. -/
def currencyBad (c : Option String) : Bool :=
  match c with
  | some s => s != "" && !(allowedCurrencies.contains s)
  | none => false

/-- Model of `PATCH /api/accounts/:accountNumber` (lines 190–255): currency change,
absolute balance set (`balance`), or signed top-up (`addBalance`).  The
source mutates the in-memory document field by field and only persists via
`account.save()`; an early error return therefore leaves the store
untouched. -/
def adjustBalance (recOk : Bool) (accountNumber : String) (req : AdjustRequest) (db : DB) :
    DB × Except PayError Account :=
  match findAccount db accountNumber with
  | none => (db, Except.error PayError.AccountNotFound)
  | some account0 =>
    let account1 := applyCurrency req.currency account0
    if currencyBad req.currency then (db, Except.error PayError.UnsupportedCurrency)
    else if req.balance.isSome && req.addBalance.isSome then
      (db, Except.error PayError.ConflictBalanceFields)
    else
      match req.balance with
      | some b =>
        if b < 0 then (db, Except.error PayError.InvalidBalance)
        else
          let account2 := { account1 with balance := b }
          (saveAccount db account2, Except.ok account2)
      | none =>
        match req.addBalance with
        | some d =>
          let account2 := { account1 with balance := account1.balance + d }
          let db1 := saveAccount db account2
          let entry : LedgerEntry :=
            { accountNumber := account2.accountNumber
              type := if 0 ≤ d then TxType.credit else TxType.debit
              amount := |d|
              currency := account2.currency
              description := "Ajuste manual de saldo (recarga ficticia)"
              source := "manual_topup"
              transactionId := none
              balanceAfter := account2.balance
              merchantName := "Povy Test" }
          (registerTransaction recOk db1 entry, Except.ok account2)
        | none => (saveAccount db account1, Except.ok account1)

/-! ## Demo fixtures

A concrete store used to exercise the operations, shaped like the documents
the provisioning endpoint creates (16-digit card number, two-digit expiry
strings, three-digit CVV). -/

/-- A concrete card, shaped like the output of `generateCardForAccount`. -/
def demoCard : Card :=
  { cardNumber := "4111111111111111", expMonth := "12", expYear := "28", cvv := "123" }

/-- A concrete account with balance 10000 USD. -/
def demoAccount : Account :=
  { accountNumber := "001-00000001", ownerName := "Usuario de prueba",
    balance := 10000, currency := "USD", card := demoCard }

/-- A second concrete account, balance 100 USD, for small-balance cases. -/
def demoAccount2 : Account :=
  { accountNumber := "001-00000002", ownerName := "Usuaria de prueba",
    balance := 100,  currency := "USD",
    card := { cardNumber := "4111111111111112", expMonth := "11", expYear := "27", cvv := "456" } }

/-- A concrete store holding the two demo accounts and an empty ledger. -/
def demoDB : DB := { accounts := [demoAccount, demoAccount2], transactions := [] }

/-- A payment request against the first demo account. -/
def demoPayReq (a : ℚ) : PaymentRequest :=
  { accountNumber := some "001-00000001", amount := some a,
    currency := none, description := none, merchantName := none }

/-- A card payment request against the first demo account's card, with
caller-chosen expiry and CVV strings. -/
def demoCardReq (em ey cv : String) (a : ℚ) : CardPaymentRequest :=
  { cardNumber := some "4111111111111111", expMonth := some em, expYear := some ey,
    cvv := some cv, amount := some a, currency := none, description := none,
    merchantName := none }

/-! ## Store lemmas -/

/-- A recorder call never touches the accounts collection. -/
theorem registerTransaction_accounts (recOk : Bool) (db : DB) (e : LedgerEntry) :
    (registerTransaction recOk db e).accounts = db.accounts := by
  cases recOk <;> rfl

/-- A recorder call never changes any stored balance. -/
theorem getBalance_registerTransaction (recOk : Bool) (db : DB) (e : LedgerEntry)
    (n : String) : getBalance (registerTransaction recOk db e) n = getBalance db n := by
  cases recOk <;> rfl

/-- A save never touches the ledger. -/
theorem saveAccount_transactions (db : DB) (a : Account) :
    (saveAccount db a).transactions = db.transactions := rfl

/-- A successful recorder call appends exactly one entry. -/
theorem registerTransaction_ok_transactions (db : DB) (e : LedgerEntry) :
    (registerTransaction true db e).transactions = e :: db.transactions := rfl

theorem find?_map_save (l : List Account) (n : String) (acct a2 : Account)
    (hfind : l.find? (fun a => a.accountNumber == n) = some acct)
    (h2 : a2.accountNumber = acct.accountNumber) :
    (l.map (fun b => if b.accountNumber == a2.accountNumber then a2 else b)).find?
      (fun a => a.accountNumber == n) = some a2 := by
  have hacct : acct.accountNumber = n := by
    simpa [beq_iff_eq] using List.find?_some hfind
  have ha2n : a2.accountNumber = n := h2.trans hacct
  induction l with
  | nil => simp at hfind
  | cons x xs ih =>
    by_cases hx : x.accountNumber = n
    · simp only [List.map_cons]
      rw [if_pos (show (x.accountNumber == a2.accountNumber) = true by
            simp [beq_iff_eq, hx, ha2n])]
      exact List.find?_cons_of_pos _ (by simpa [beq_iff_eq] using ha2n)
    · rw [List.find?_cons_of_neg _ (by simpa [beq_iff_eq] using hx)] at hfind
      simp only [List.map_cons]
      rw [if_neg (show ¬ (x.accountNumber == a2.accountNumber) = true by
            simp [beq_iff_eq, ha2n]; exact hx)]
      rw [List.find?_cons_of_neg _ (by simpa [beq_iff_eq] using hx)]
      exact ih hfind

/-- Reading an account back after saving a document with the same account
number yields the saved document. -/
theorem findAccount_saveAccount (db : DB) (n : String) (acct a2 : Account)
    (hfind : findAccount db n = some acct)
    (h2 : a2.accountNumber = acct.accountNumber) :
    findAccount (saveAccount db a2) n = some a2 :=
  find?_map_save db.accounts n acct a2 hfind h2

/-- The stored balance after a save of a same-numbered document is the saved
document's balance. -/
theorem getBalance_saveAccount (db : DB) (n : String) (acct a2 : Account)
    (hfind : findAccount db n = some acct)
    (h2 : a2.accountNumber = acct.accountNumber) :
    getBalance (saveAccount db a2) n = some a2.balance := by
  unfold getBalance
  rw [findAccount_saveAccount db n acct a2 hfind h2]
  rfl

/-- The `accountNumber` field carries a unique index in the schema (line 31); a store
is well formed when no two documents share an account number. -/
def DB.wf (db : DB) : Prop :=
  (db.accounts.map (fun a => a.accountNumber)).Nodup

theorem find?_eq_of_mem_nodup (l : List Account) (acct : Account)
    (hmem : acct ∈ l) (hnodup : (l.map (fun a => a.accountNumber)).Nodup) :
    l.find? (fun a => a.accountNumber == acct.accountNumber) = some acct := by
  induction l with
  | nil => simp at hmem
  | cons x xs ih =>
    rw [List.map_cons, List.nodup_cons] at hnodup
    rcases List.mem_cons.mp hmem with rfl | hmem2
    · exact List.find?_cons_of_pos _ (by simp)
    · have hx : x.accountNumber ≠ acct.accountNumber := by
        intro he
        exact hnodup.1 (he ▸ List.mem_map.mpr ⟨acct, hmem2, rfl⟩)
      rw [List.find?_cons_of_neg _ (by simpa [beq_iff_eq] using hx)]
      exact ih hmem2 hnodup.2

/-- In a well-formed store, any stored document is the one returned when
looking its own number up. -/
theorem findAccount_of_mem (db : DB) (acct : Account)
    (hmem : acct ∈ db.accounts) (hwf : db.wf) :
    findAccount db acct.accountNumber = some acct :=
  find?_eq_of_mem_nodup db.accounts acct hmem hwf

/-- A card lookup in a well-formed store agrees with the account-number
lookup on the account it returns. -/
theorem findAccount_of_findAccountByCard (db : DB) (cardNo : String) (acct : Account)
    (hfind : findAccountByCard db cardNo = some acct) (hwf : db.wf) :
    findAccount db acct.accountNumber = some acct :=
  findAccount_of_mem db acct (List.mem_of_find?_eq_some hfind) hwf

/-- An unsaved store returns the balance that was found. -/
theorem getBalance_of_findAccount (db : DB) (n : String) (acct : Account)
    (hfind : findAccount db n = some acct) :
    getBalance db n = some acct.balance := by
  unfold getBalance; rw [hfind]; rfl

/-! ## Payment flow lemmas

Each payment endpoint either fails an early check (returning an error with
the store untouched) or runs the authorize-mutate-record sequence; the
lemmas below capture both shapes. -/

/-- A valid account payment runs the full authorize-mutate-record
sequence of lines 305–341. -/
theorem payByAccountNumber_run (recOk : Bool) (now : Nat) (req : PaymentRequest) (db : DB)
    (accNo : String) (acct : Account) (amount : ℚ)
    (haccno : req.accountNumber = some accNo) (hne : accNo ≠ "")
    (hamt : req.amount = some amount)
    (hfind : findAccount db accNo = some acct) (hpos : 0 < amount) :
    payByAccountNumber recOk now req db =
      (registerTransaction recOk
         (if amount > acct.balance then db
          else saveAccount db { acct with balance := acct.balance - amount })
         { accountNumber := acct.accountNumber
           type := TxType.debit
           amount := amount
           currency := jsOrStr req.currency acct.currency
           description := jsOrStr req.description "Pago de prueba por número de cuenta"
           source := "account_payment"
           transactionId := some ("POVY-" ++ toString now)
           balanceAfter := if amount > acct.balance then acct.balance else acct.balance - amount
           merchantName := jsOrStr req.merchantName "Povy Test" },
       Except.ok
         { status := if amount > acct.balance then "declined" else "approved"
           transactionId := "POVY-" ++ toString now
           message := if amount > acct.balance then "Fondos insuficientes en la cuenta."
                      else "Pago aprobado."
           amount := amount
           currency := jsOrStr req.currency acct.currency
           description := jsOrStr req.description "Pago de prueba"
           accountNumber := acct.accountNumber
           remainingBalance := if amount > acct.balance then acct.balance
                               else acct.balance - amount }) := by
  unfold payByAccountNumber
  rw [haccno, hamt]
  simp only []
  rw [if_neg hne, hfind]
  dsimp only
  rw [if_neg (not_le.mpr hpos)]
  by_cases hd : amount > acct.balance
  · simp [hd]
  · simp [hd]

/-- When any precondition fails (missing field, unknown account, bad
amount), `POST /api/payments` returns an error and leaves the store
untouched. -/
theorem payByAccountNumber_invalid (now : Nat) (req : PaymentRequest) (db : DB)
    (h : ¬ ∃ accNo amount acct, req.accountNumber = some accNo ∧ accNo ≠ "" ∧
          req.amount = some amount ∧ findAccount db accNo = some acct ∧ 0 < amount) :
    ∃ e, ∀ recOk : Bool, payByAccountNumber recOk now req db = (db, Except.error e) := by
  unfold payByAccountNumber
  rcases ha : req.accountNumber with _ | accNo
  · exact ⟨PayError.MissingFields, fun recOk => rfl⟩
  · rcases hm : req.amount with _ | amount
    · exact ⟨PayError.MissingFields, fun recOk => rfl⟩
    · dsimp only
      by_cases hne : accNo = ""
      · exact ⟨PayError.MissingFields, fun recOk => by rw [if_pos hne]⟩
      · rcases hf : findAccount db accNo with _ | acct
        · exact ⟨PayError.AccountNotFound, fun recOk => by rw [if_neg hne]⟩
        · by_cases hle : amount ≤ 0
          · exact ⟨PayError.InvalidAmount, fun recOk => by
              rw [if_neg hne]
              dsimp only
              rw [if_pos hle]⟩
          · exact absurd ⟨accNo, amount, acct, ha, hne, hm, hf, lt_of_not_le hle⟩ h

/-- A valid card payment runs the full authorize-mutate-record sequence of
lines 402–439. -/
theorem payByCard_run (recOk : Bool) (now : Nat) (req : CardPaymentRequest) (db : DB)
    (cn em ey cv : String) (acct : Account) (amount : ℚ)
    (hcn : req.cardNumber = some cn) (hem : req.expMonth = some em)
    (hey : req.expYear = some ey) (hcv : req.cvv = some cv)
    (hamt : req.amount = some amount)
    (hne : ¬ (cn = "" ∨ em = "" ∨ ey = "" ∨ cv = ""))
    (hfind : findAccountByCard db (stripWhitespace cn) = some acct)
    (hauth : ¬ (acct.card.expMonth ≠ em ∨ acct.card.expYear ≠ ey ∨ acct.card.cvv ≠ cv))
    (hpos : 0 < amount) :
    payByCard recOk now req db =
      (registerTransaction recOk
         (if amount > acct.balance then db
          else saveAccount db { acct with balance := acct.balance - amount })
         { accountNumber := acct.accountNumber
           type := TxType.debit
           amount := amount
           currency := jsOrStr req.currency acct.currency
           description := jsOrStr req.description "Pago de prueba con tarjeta"
           source := "card_payment"
           transactionId := some ("POVY-CARD-" ++ toString now)
           balanceAfter := if amount > acct.balance then acct.balance else acct.balance - amount
           merchantName := jsOrStr req.merchantName "Povy Test" },
       Except.ok
         { status := if amount > acct.balance then "declined" else "approved"
           transactionId := "POVY-CARD-" ++ toString now
           message := if amount > acct.balance then "Fondos insuficientes en la cuenta."
                      else "Pago aprobado."
           amount := amount
           currency := jsOrStr req.currency acct.currency
           description := jsOrStr req.description "Pago de prueba con tarjeta"
           accountNumber := acct.accountNumber
           cardLast4 := sliceLast4 acct.card.cardNumber
           remainingBalance := if amount > acct.balance then acct.balance
                               else acct.balance - amount }) := by
  unfold payByCard
  rw [hcn, hem, hey, hcv, hamt]
  dsimp only
  rw [if_neg hne, hfind]
  dsimp only
  rw [if_neg hauth, if_neg (not_le.mpr hpos)]
  by_cases hd : amount > acct.balance
  · simp [hd]
  · simp [hd]

/-- A card payment whose card number resolves to an account but whose
expiry or CVV does not string-match fails with the authentication error and
leaves the store untouched. -/
theorem payByCard_authFail (recOk : Bool) (now : Nat) (req : CardPaymentRequest) (db : DB)
    (cn em ey cv : String) (acct : Account)
    (hcn : req.cardNumber = some cn) (hem : req.expMonth = some em)
    (hey : req.expYear = some ey) (hcv : req.cvv = some cv)
    (hamt : req.amount.isSome)
    (hne : ¬ (cn = "" ∨ em = "" ∨ ey = "" ∨ cv = ""))
    (hfind : findAccountByCard db (stripWhitespace cn) = some acct)
    (hauth : acct.card.expMonth ≠ em ∨ acct.card.expYear ≠ ey ∨ acct.card.cvv ≠ cv) :
    payByCard recOk now req db = (db, Except.error PayError.CardAuthenticationFailed) := by
  rcases Option.isSome_iff_exists.mp hamt with ⟨amount, hamt⟩
  unfold payByCard
  rw [hcn, hem, hey, hcv, hamt]
  dsimp only
  rw [if_neg hne, hfind]
  dsimp only
  rw [if_pos hauth]

/-- A card payment whose whitespace-stripped card number matches no stored
card fails with the not-found error and leaves the store untouched. -/
theorem payByCard_notFound (recOk : Bool) (now : Nat) (req : CardPaymentRequest) (db : DB)
    (cn em ey cv : String)
    (hcn : req.cardNumber = some cn) (hem : req.expMonth = some em)
    (hey : req.expYear = some ey) (hcv : req.cvv = some cv)
    (hamt : req.amount.isSome)
    (hne : ¬ (cn = "" ∨ em = "" ∨ ey = "" ∨ cv = ""))
    (hfind : findAccountByCard db (stripWhitespace cn) = none) :
    payByCard recOk now req db = (db, Except.error PayError.CardNotFound) := by
  rcases Option.isSome_iff_exists.mp hamt with ⟨amount, hamt⟩
  unfold payByCard
  rw [hcn, hem, hey, hcv, hamt]
  dsimp only
  rw [if_neg hne, hfind]

/-- When any precondition of the card flow fails, `POST /api/payments/card`
returns an error and leaves the store untouched. -/
theorem payByCard_invalid (now : Nat) (req : CardPaymentRequest) (db : DB)
    (h : ¬ ∃ cn em ey cv amount acct, req.cardNumber = some cn ∧ req.expMonth = some em ∧
          req.expYear = some ey ∧ req.cvv = some cv ∧ req.amount = some amount ∧
          ¬ (cn = "" ∨ em = "" ∨ ey = "" ∨ cv = "") ∧
          findAccountByCard db (stripWhitespace cn) = some acct ∧
          ¬ (acct.card.expMonth ≠ em ∨ acct.card.expYear ≠ ey ∨ acct.card.cvv ≠ cv) ∧
          0 < amount) :
    ∃ e, ∀ recOk : Bool, payByCard recOk now req db = (db, Except.error e) := by
  unfold payByCard
  rcases h1 : req.cardNumber with _ | cn
  · exact ⟨PayError.MissingFields, fun recOk => rfl⟩
  rcases h2 : req.expMonth with _ | em
  · exact ⟨PayError.MissingFields, fun recOk => rfl⟩
  rcases h3 : req.expYear with _ | ey
  · exact ⟨PayError.MissingFields, fun recOk => rfl⟩
  rcases h4 : req.cvv with _ | cv
  · exact ⟨PayError.MissingFields, fun recOk => rfl⟩
  rcases h5 : req.amount with _ | amount
  · exact ⟨PayError.MissingFields, fun recOk => rfl⟩
  dsimp only
  by_cases hne : cn = "" ∨ em = "" ∨ ey = "" ∨ cv = ""
  · exact ⟨PayError.MissingFields, fun recOk => by rw [if_pos hne]⟩
  rcases hf : findAccountByCard db (stripWhitespace cn) with _ | acct
  · exact ⟨PayError.CardNotFound, fun recOk => by rw [if_neg hne]⟩
  by_cases hauth : acct.card.expMonth ≠ em ∨ acct.card.expYear ≠ ey ∨ acct.card.cvv ≠ cv
  · exact ⟨PayError.CardAuthenticationFailed, fun recOk => by
      rw [if_neg hne]
      dsimp only
      rw [if_pos hauth]⟩
  by_cases hle : amount ≤ 0
  · exact ⟨PayError.InvalidAmount, fun recOk => by
      rw [if_neg hne]
      dsimp only
      rw [if_neg hauth, if_pos hle]⟩
  · exact absurd ⟨cn, em, ey, cv, amount, acct, h1, h2, h3, h4, h5, hne, hf, hauth,
      lt_of_not_le hle⟩ h

/-- The `addBalance` path (lines 226–246): the signed delta is applied with
no non-negativity check, the document is saved, and one `manual_topup`
ledger entry is recorded. -/
theorem adjustBalance_add_run (recOk : Bool) (accNo : String) (req : AdjustRequest) (db : DB)
    (acct0 : Account) (d : ℚ)
    (hfind : findAccount db accNo = some acct0)
    (hcur : currencyBad req.currency = false)
    (hbal : req.balance = none) (hadd : req.addBalance = some d) :
    adjustBalance recOk accNo req db =
      (registerTransaction recOk
         (saveAccount db
           { applyCurrency req.currency acct0 with
               balance := (applyCurrency req.currency acct0).balance + d })
         { accountNumber := acct0.accountNumber
           type := if 0 ≤ d then TxType.credit else TxType.debit
           amount := |d|
           currency := (applyCurrency req.currency acct0).currency
           description := "Ajuste manual de saldo (recarga ficticia)"
           source := "manual_topup"
           transactionId := none
           balanceAfter := (applyCurrency req.currency acct0).balance + d
           merchantName := "Povy Test" },
       Except.ok
         { applyCurrency req.currency acct0 with
             balance := (applyCurrency req.currency acct0).balance + d }) := by
  unfold adjustBalance
  rw [hfind]
  dsimp only
  rw [hcur, hbal, hadd]
  have hnum : (applyCurrency req.currency acct0).accountNumber = acct0.accountNumber := by
    unfold applyCurrency
    rcases req.currency with _ | c
    · rfl
    · dsimp only
      split <;> rfl
  simp [hnum]

/-- The absolute-set path with a non-negative value (lines 217–223 and the
final save of line 248): the balance is set and no ledger entry is
written. -/
theorem adjustBalance_set_run (recOk : Bool) (accNo : String) (req : AdjustRequest) (db : DB)
    (acct0 : Account) (b : ℚ)
    (hfind : findAccount db accNo = some acct0)
    (hcur : currencyBad req.currency = false)
    (hbal : req.balance = some b) (hadd : req.addBalance = none) (hb : 0 ≤ b) :
    adjustBalance recOk accNo req db =
      (saveAccount db { applyCurrency req.currency acct0 with balance := b },
       Except.ok { applyCurrency req.currency acct0 with balance := b }) := by
  unfold adjustBalance
  rw [hfind]
  dsimp only
  rw [hcur, hbal, hadd]
  simp [not_lt.mpr hb]

/-- The absolute-set path rejects a negative value (line 219) and leaves
the store untouched. -/
theorem adjustBalance_set_neg (recOk : Bool) (accNo : String) (req : AdjustRequest) (db : DB)
    (acct0 : Account) (b : ℚ)
    (hfind : findAccount db accNo = some acct0)
    (hcur : currencyBad req.currency = false)
    (hbal : req.balance = some b) (hadd : req.addBalance = none) (hb : b < 0) :
    adjustBalance recOk accNo req db = (db, Except.error PayError.InvalidBalance) := by
  unfold adjustBalance
  rw [hfind]
  dsimp only
  rw [hcur, hbal, hadd]
  simp [hb]

/-- Supplying both `balance` and `addBalance` on an existing account is
refused (lines 210–214) before any save: the store is untouched, and the
failure is one of the two validation errors (the currency check of lines
201–208 fires first when it applies). -/
theorem adjustBalance_conflict (recOk : Bool) (accNo : String) (req : AdjustRequest) (db : DB)
    (acct0 : Account)
    (hfind : findAccount db accNo = some acct0)
    (hbal : req.balance.isSome) (hadd : req.addBalance.isSome) :
    adjustBalance recOk accNo req db = (db, Except.error PayError.ConflictBalanceFields) ∨
    adjustBalance recOk accNo req db = (db, Except.error PayError.UnsupportedCurrency) := by
  unfold adjustBalance
  rw [hfind]
  dsimp only
  cases hcur : currencyBad req.currency
  · left
    rw [hbal, hadd]
    rfl
  · right
    rfl

/-! ## Claims -/

/-- C1: For every payment attempt (by account number or by card) on an
account with current balance `B` and requested amount `A > 0`: if `A > B`
the outcome is declined and the stored balance remains exactly `B`; if
`A ≤ B` the outcome is approved and the stored balance becomes exactly
`B - A`; in particular `A = B` is approved and yields balance `0`. -/
theorem C1_payment_decision :
    (∀ (recOk : Bool) (now : Nat) (db : DB) (req : PaymentRequest)
       (accNo : String) (acct : Account) (A : ℚ),
       req.accountNumber = some accNo → accNo ≠ "" → req.amount = some A →
       findAccount db accNo = some acct → 0 < A →
       ((acct.balance < A →
          ∃ r, (payByAccountNumber recOk now req db).2 = Except.ok r ∧
            r.status = "declined" ∧
            getBalance (payByAccountNumber recOk now req db).1 accNo = some acct.balance) ∧
        (A ≤ acct.balance →
          ∃ r, (payByAccountNumber recOk now req db).2 = Except.ok r ∧
            r.status = "approved" ∧
            getBalance (payByAccountNumber recOk now req db).1 accNo =
              some (acct.balance - A)) ∧
        (A = acct.balance →
          ∃ r, (payByAccountNumber recOk now req db).2 = Except.ok r ∧
            r.status = "approved" ∧
            getBalance (payByAccountNumber recOk now req db).1 accNo = some 0))) ∧
    (∀ (recOk : Bool) (now : Nat) (db : DB) (req : CardPaymentRequest)
       (cn em ey cv : String) (acct : Account) (A : ℚ),
       req.cardNumber = some cn → req.expMonth = some em → req.expYear = some ey →
       req.cvv = some cv → req.amount = some A → db.wf →
       ¬ (cn = "" ∨ em = "" ∨ ey = "" ∨ cv = "") →
       findAccountByCard db (stripWhitespace cn) = some acct →
       acct.card.expMonth = em → acct.card.expYear = ey → acct.card.cvv = cv → 0 < A →
       ((acct.balance < A →
          ∃ r, (payByCard recOk now req db).2 = Except.ok r ∧
            r.status = "declined" ∧
            getBalance (payByCard recOk now req db).1 acct.accountNumber =
              some acct.balance) ∧
        (A ≤ acct.balance →
          ∃ r, (payByCard recOk now req db).2 = Except.ok r ∧
            r.status = "approved" ∧
            getBalance (payByCard recOk now req db).1 acct.accountNumber =
              some (acct.balance - A)))) := by
  constructor
  · intro recOk now db req accNo acct A haccno hne hamt hfind hpos
    have hrun := payByAccountNumber_run recOk now req db accNo acct A haccno hne hamt hfind hpos
    have haccn : acct.accountNumber = accNo := by
      simpa [beq_iff_eq] using List.find?_some hfind
    refine ⟨fun hd => ?_, fun ha => ?_, fun he => ?_⟩
    · refine ⟨_, by rw [hrun], ?_, ?_⟩
      · simp [hd]
      · rw [hrun]
        dsimp only
        rw [getBalance_registerTransaction, if_pos hd]
        exact getBalance_of_findAccount db accNo acct hfind
    · refine ⟨_, by rw [hrun], ?_, ?_⟩
      · simp [not_lt.mpr ha]
      · rw [hrun]
        dsimp only
        rw [getBalance_registerTransaction, if_neg (not_lt.mpr ha)]
        exact getBalance_saveAccount db accNo acct _ hfind rfl
    · refine ⟨_, by rw [hrun], ?_, ?_⟩
      · simp [not_lt.mpr he.le]
      · rw [hrun]
        dsimp only
        rw [getBalance_registerTransaction, if_neg (not_lt.mpr he.le)]
        have := getBalance_saveAccount db accNo acct
          { acct with balance := acct.balance - A } hfind rfl
        rw [this]
        simp [he]
  · intro recOk now db req cn em ey cv acct A hcn hem hey hcv hamt hwf hne hfind h1 h2 h3 hpos
    have hauth : ¬ (acct.card.expMonth ≠ em ∨ acct.card.expYear ≠ ey ∨ acct.card.cvv ≠ cv) := by
      simp [h1, h2, h3]
    have hrun := payByCard_run recOk now req db cn em ey cv acct A
      hcn hem hey hcv hamt hne hfind hauth hpos
    have hfindn : findAccount db acct.accountNumber = some acct :=
      findAccount_of_findAccountByCard db (stripWhitespace cn) acct hfind hwf
    refine ⟨fun hd => ?_, fun ha => ?_⟩
    · refine ⟨_, by rw [hrun], ?_, ?_⟩
      · simp [hd]
      · rw [hrun]
        dsimp only
        rw [getBalance_registerTransaction, if_pos hd]
        exact getBalance_of_findAccount db acct.accountNumber acct hfindn
    · refine ⟨_, by rw [hrun], ?_, ?_⟩
      · simp [not_lt.mpr ha]
      · rw [hrun]
        dsimp only
        rw [getBalance_registerTransaction, if_neg (not_lt.mpr ha)]
        exact getBalance_saveAccount db acct.accountNumber acct _ hfindn rfl


theorem C1_payment_decision_witness :
    (∃ r, (payByAccountNumber true 7 (demoPayReq 4000) demoDB).2 = Except.ok r ∧
       r.status = "approved" ∧
       getBalance (payByAccountNumber true 7 (demoPayReq 4000) demoDB).1 "001-00000001" =
         some (demoAccount.balance - 4000)) ∧
    (∃ r, (payByAccountNumber true 7 (demoPayReq 50000) demoDB).2 = Except.ok r ∧
       r.status = "declined" ∧
       getBalance (payByAccountNumber true 7 (demoPayReq 50000) demoDB).1 "001-00000001" =
         some demoAccount.balance) ∧
    (∃ r, (payByAccountNumber true 7 (demoPayReq 10000) demoDB).2 = Except.ok r ∧
       r.status = "approved" ∧
       getBalance (payByAccountNumber true 7 (demoPayReq 10000) demoDB).1 "001-00000001" =
         some 0) ∧
    (∃ r, (payByCard true 7 (demoCardReq "12" "28" "123" 4000) demoDB).2 = Except.ok r ∧
       r.status = "approved" ∧
       getBalance (payByCard true 7 (demoCardReq "12" "28" "123" 4000) demoDB).1
         demoAccount.accountNumber = some (demoAccount.balance - 4000)) :=
  ⟨(C1_payment_decision.1 true 7 demoDB (demoPayReq 4000) "001-00000001" demoAccount 4000
      rfl (by decide) rfl rfl (by norm_num)).2.1 (by norm_num [demoAccount]),
   (C1_payment_decision.1 true 7 demoDB (demoPayReq 50000) "001-00000001" demoAccount 50000
      rfl (by decide) rfl rfl (by norm_num)).1 (by norm_num [demoAccount]),
   (C1_payment_decision.1 true 7 demoDB (demoPayReq 10000) "001-00000001" demoAccount 10000
      rfl (by decide) rfl rfl (by norm_num)).2.2 (by norm_num [demoAccount]),
   (C1_payment_decision.2 true 7 demoDB (demoCardReq "12" "28" "123" 4000)
      "4111111111111111" "12" "28" "123" demoAccount 4000
      rfl rfl rfl rfl rfl (by unfold DB.wf; decide) (by decide) rfl rfl rfl rfl
      (by norm_num)).2 (by norm_num [demoAccount])⟩

/-- The currency update never changes the account number. -/
theorem applyCurrency_accountNumber (c : Option String) (a : Account) :
    (applyCurrency c a).accountNumber = a.accountNumber := by
  unfold applyCurrency
  rcases c with _ | s
  · rfl
  · dsimp only
    split <;> rfl

/-- C2 counterexample: on an account with balance `10000`, a successful
`addBalance: -50000` is applied and persisted, leaving the stored balance
at `-40000 < 0` — the operation is neither rejected nor clamped. -/
theorem C2_counterexample :
    (adjustBalance true "001-00000001"
       { currency := none, balance := none, addBalance := some (-50000) } demoDB).2.isOk = true ∧
    getBalance (adjustBalance true "001-00000001"
       { currency := none, balance := none, addBalance := some (-50000) } demoDB).1
      "001-00000001" = some (-40000) ∧ ((-40000 : ℚ) < 0) := by
  have hrun := adjustBalance_add_run true "001-00000001"
    { currency := none, balance := none, addBalance := some (-50000) } demoDB demoAccount
    (-50000) rfl rfl rfl rfl
  refine ⟨by rw [hrun]; rfl, ?_, by norm_num⟩
  rw [hrun, getBalance_registerTransaction]
  have := getBalance_saveAccount demoDB "001-00000001" demoAccount
    { applyCurrency none demoAccount with
        balance := (applyCurrency none demoAccount).balance + (-50000) }
    rfl (applyCurrency_accountNumber none demoAccount)
  rw [this]
  norm_num [applyCurrency, demoAccount]

/-- C2 (amended): after every successful payment debit and every
successful absolute balance set, the stored balance is non-negative (given
a non-negative starting balance), and an absolute set below zero is
rejected without applying the change; the `addBalance` path, however,
applies any finite signed delta unconditionally — it can drive the stored
balance negative and is never rejected for sign. -/
theorem C2_balance_invariant :
    (∀ (recOk : Bool) (now : Nat) (db : DB) (req : PaymentRequest)
       (accNo : String) (acct : Account) (A : ℚ),
       req.accountNumber = some accNo → accNo ≠ "" → req.amount = some A →
       findAccount db accNo = some acct → 0 < A → 0 ≤ acct.balance →
       ∃ v, getBalance (payByAccountNumber recOk now req db).1 accNo = some v ∧ 0 ≤ v) ∧
    (∀ (recOk : Bool) (accNo : String) (req : AdjustRequest) (db : DB)
       (acct0 : Account) (b : ℚ),
       findAccount db accNo = some acct0 → currencyBad req.currency = false →
       req.balance = some b → req.addBalance = none →
       ((b < 0 → adjustBalance recOk accNo req db = (db, Except.error PayError.InvalidBalance)) ∧
        (0 ≤ b → getBalance (adjustBalance recOk accNo req db).1 accNo = some b))) ∧
    (∀ (recOk : Bool) (accNo : String) (req : AdjustRequest) (db : DB)
       (acct0 : Account) (d : ℚ),
       findAccount db accNo = some acct0 → currencyBad req.currency = false →
       req.balance = none → req.addBalance = some d →
       (adjustBalance recOk accNo req db).2 =
         Except.ok { applyCurrency req.currency acct0 with
                       balance := (applyCurrency req.currency acct0).balance + d } ∧
       getBalance (adjustBalance recOk accNo req db).1 accNo =
         some ((applyCurrency req.currency acct0).balance + d)) := by
  refine ⟨?_, ?_, ?_⟩
  · intro recOk now db req accNo acct A haccno hne hamt hfind hpos hb
    have hrun := payByAccountNumber_run recOk now req db accNo acct A haccno hne hamt hfind hpos
    by_cases hd : A > acct.balance
    · refine ⟨acct.balance, ?_, hb⟩
      rw [hrun]
      dsimp only
      rw [getBalance_registerTransaction, if_pos hd]
      exact getBalance_of_findAccount db accNo acct hfind
    · refine ⟨acct.balance - A, ?_, sub_nonneg.mpr (not_lt.mp hd)⟩
      rw [hrun]
      dsimp only
      rw [getBalance_registerTransaction, if_neg hd]
      exact getBalance_saveAccount db accNo acct _ hfind rfl
  · intro recOk accNo req db acct0 b hfind hcur hbal hadd
    refine ⟨fun hb => adjustBalance_set_neg recOk accNo req db acct0 b hfind hcur hbal hadd hb,
      fun hb => ?_⟩
    rw [adjustBalance_set_run recOk accNo req db acct0 b hfind hcur hbal hadd hb]
    have hacn : acct0.accountNumber = accNo := by
      simpa [beq_iff_eq] using List.find?_some hfind
    exact getBalance_saveAccount db accNo acct0 _ hfind (applyCurrency_accountNumber _ _)
  · intro recOk accNo req db acct0 d hfind hcur hbal hadd
    rw [adjustBalance_add_run recOk accNo req db acct0 d hfind hcur hbal hadd]
    refine ⟨rfl, ?_⟩
    dsimp only
    rw [getBalance_registerTransaction]
    exact getBalance_saveAccount db accNo acct0 _ hfind (applyCurrency_accountNumber _ _)

theorem C2_balance_invariant_witness :
    (∃ v, getBalance (payByAccountNumber true 7 (demoPayReq 4000) demoDB).1
        "001-00000001" = some v ∧ 0 ≤ v) ∧
    (adjustBalance true "001-00000001"
       { currency := none, balance := some (-5), addBalance := none } demoDB =
       (demoDB, Except.error PayError.InvalidBalance)) ∧
    getBalance (adjustBalance true "001-00000001"
       { currency := none, balance := some 500, addBalance := none } demoDB).1
      "001-00000001" = some 500 ∧
    getBalance (adjustBalance true "001-00000001"
       { currency := none, balance := none, addBalance := some (-50000) } demoDB).1
      "001-00000001" = some ((applyCurrency none demoAccount).balance + (-50000)) :=
  ⟨C2_balance_invariant.1 true 7 demoDB (demoPayReq 4000) "001-00000001" demoAccount 4000
      rfl (by decide) rfl rfl (by norm_num) (by norm_num [demoAccount]),
   (C2_balance_invariant.2.1 true "001-00000001"
      { currency := none, balance := some (-5), addBalance := none } demoDB demoAccount (-5)
      rfl rfl rfl rfl).1 (by norm_num),
   (C2_balance_invariant.2.1 true "001-00000001"
      { currency := none, balance := some 500, addBalance := none } demoDB demoAccount 500
      rfl rfl rfl rfl).2 (by norm_num),
   (C2_balance_invariant.2.2 true "001-00000001"
      { currency := none, balance := none, addBalance := some (-50000) } demoDB demoAccount
      (-50000) rfl rfl rfl rfl).2⟩

/-- C3: With the recorder's persistence succeeding, a payment attempt
writes a ledger entry exactly when it completes to a decision: a completed
attempt (approved or declined) appends exactly one entry for that account
whose `balanceAfter` equals the account's post-call stored balance, and an
attempt that fails earlier (missing fields, unknown account or card,
invalid amount, card authentication failure) writes none. -/
theorem C3_ledger_iff_decision :
    (∀ (now : Nat) (req : PaymentRequest) (db : DB),
      (∀ r, (payByAccountNumber true now req db).2 = Except.ok r →
        ∃ e, (payByAccountNumber true now req db).1.transactions = e :: db.transactions ∧
          e.accountNumber = r.accountNumber ∧
          getBalance (payByAccountNumber true now req db).1 e.accountNumber =
            some e.balanceAfter) ∧
      (∀ er, (payByAccountNumber true now req db).2 = Except.error er →
        (payByAccountNumber true now req db).1.transactions = db.transactions)) ∧
    (∀ (now : Nat) (req : CardPaymentRequest) (db : DB), db.wf →
      (∀ r, (payByCard true now req db).2 = Except.ok r →
        ∃ e, (payByCard true now req db).1.transactions = e :: db.transactions ∧
          e.accountNumber = r.accountNumber ∧
          getBalance (payByCard true now req db).1 e.accountNumber =
            some e.balanceAfter) ∧
      (∀ er, (payByCard true now req db).2 = Except.error er →
        (payByCard true now req db).1.transactions = db.transactions)) := by
  constructor
  · intro now req db
    by_cases hvalid : ∃ accNo amount acct, req.accountNumber = some accNo ∧ accNo ≠ "" ∧
        req.amount = some amount ∧ findAccount db accNo = some acct ∧ 0 < amount
    · obtain ⟨accNo, amount, acct, haccno, hne, hamt, hfind, hpos⟩ := hvalid
      have hrun := payByAccountNumber_run true now req db accNo acct amount
        haccno hne hamt hfind hpos
      have haccn : acct.accountNumber = accNo := by
        simpa [beq_iff_eq] using List.find?_some hfind
      constructor
      · intro r hr
        refine ⟨{ accountNumber := acct.accountNumber
                  type := TxType.debit
                  amount := amount
                  currency := jsOrStr req.currency acct.currency
                  description := jsOrStr req.description "Pago de prueba por número de cuenta"
                  source := "account_payment"
                  transactionId := some ("POVY-" ++ toString now)
                  balanceAfter := if amount > acct.balance then acct.balance
                                  else acct.balance - amount
                  merchantName := jsOrStr req.merchantName "Povy Test" }, ?_, ?_, ?_⟩
        · rw [hrun]
          dsimp only
          rw [registerTransaction_ok_transactions]
          by_cases hd : amount > acct.balance
          · simp only [if_pos hd]
          · simp only [if_neg hd, saveAccount_transactions]
        · rw [hrun] at hr
          dsimp only at hr
          rw [← Except.ok.inj hr]
        · rw [hrun]
          dsimp only
          rw [getBalance_registerTransaction]
          by_cases hd : amount > acct.balance
          · rw [if_pos hd, if_pos hd, haccn]
            exact getBalance_of_findAccount db accNo acct hfind
          · rw [if_neg hd, if_neg hd, haccn]
            exact getBalance_saveAccount db accNo acct _ hfind haccn.symm
      · intro er her
        rw [hrun] at her
        exact absurd her (by simp)
    · obtain ⟨e, he⟩ := payByAccountNumber_invalid now req db hvalid
      rw [he true]
      exact ⟨fun r hr => absurd hr (by simp), fun er her => rfl⟩
  · intro now req db hwf
    by_cases hvalid : ∃ cn em ey cv amount acct, req.cardNumber = some cn ∧
        req.expMonth = some em ∧ req.expYear = some ey ∧ req.cvv = some cv ∧
        req.amount = some amount ∧ ¬ (cn = "" ∨ em = "" ∨ ey = "" ∨ cv = "") ∧
        findAccountByCard db (stripWhitespace cn) = some acct ∧
        ¬ (acct.card.expMonth ≠ em ∨ acct.card.expYear ≠ ey ∨ acct.card.cvv ≠ cv) ∧
        0 < amount
    · obtain ⟨cn, em, ey, cv, amount, acct, hcn, hem, hey, hcv, hamt, hne, hfind, hauth, hpos⟩ :=
        hvalid
      have hrun := payByCard_run true now req db cn em ey cv acct amount
        hcn hem hey hcv hamt hne hfind hauth hpos
      have hfindn : findAccount db acct.accountNumber = some acct :=
        findAccount_of_findAccountByCard db (stripWhitespace cn) acct hfind hwf
      constructor
      · intro r hr
        refine ⟨{ accountNumber := acct.accountNumber
                  type := TxType.debit
                  amount := amount
                  currency := jsOrStr req.currency acct.currency
                  description := jsOrStr req.description "Pago de prueba con tarjeta"
                  source := "card_payment"
                  transactionId := some ("POVY-CARD-" ++ toString now)
                  balanceAfter := if amount > acct.balance then acct.balance
                                  else acct.balance - amount
                  merchantName := jsOrStr req.merchantName "Povy Test" }, ?_, ?_, ?_⟩
        · rw [hrun]
          dsimp only
          rw [registerTransaction_ok_transactions]
          by_cases hd : amount > acct.balance
          · simp only [if_pos hd]
          · simp only [if_neg hd, saveAccount_transactions]
        · rw [hrun] at hr
          dsimp only at hr
          rw [← Except.ok.inj hr]
        · rw [hrun]
          dsimp only
          rw [getBalance_registerTransaction]
          by_cases hd : amount > acct.balance
          · rw [if_pos hd, if_pos hd]
            exact getBalance_of_findAccount db acct.accountNumber acct hfindn
          · rw [if_neg hd, if_neg hd]
            exact getBalance_saveAccount db acct.accountNumber acct _ hfindn rfl
      · intro er her
        rw [hrun] at her
        exact absurd her (by simp)
    · obtain ⟨e, he⟩ := payByCard_invalid now req db hvalid
      rw [he true]
      exact ⟨fun r hr => absurd hr (by simp), fun er her => rfl⟩

theorem C3_ledger_iff_decision_witness :
    (∃ e, (payByAccountNumber true 7 (demoPayReq 4000) demoDB).1.transactions =
        e :: demoDB.transactions ∧
      e.accountNumber = "001-00000001" ∧
      getBalance (payByAccountNumber true 7 (demoPayReq 4000) demoDB).1 e.accountNumber =
        some e.balanceAfter) ∧
    (payByAccountNumber true 7
        { accountNumber := some "999", amount := some 4000, currency := none,
          description := none, merchantName := none } demoDB).1.transactions =
      demoDB.transactions := by
  constructor
  · obtain ⟨e, h1, h2, h3⟩ := (C3_ledger_iff_decision.1 7 (demoPayReq 4000) demoDB).1 _
      (by rw [payByAccountNumber_run true 7 (demoPayReq 4000) demoDB "001-00000001"
            demoAccount 4000 rfl (by decide) rfl rfl (by norm_num)])
    exact ⟨e, h1, h2.trans rfl, h3⟩
  · exact (C3_ledger_iff_decision.1 7 _ demoDB).2 PayError.AccountNotFound rfl

/-- Two concurrent `POST /api/payments` handlers on the same account, in
the interleaving where both `await Account.findOne` reads (line 287)
complete before either `await account.save()` write (line 315) — an
interleaving the handler's suspension points permit.  Each handler then
performs the source's unconditional decide, in-memory subtract and save on
its own (now stale) snapshot. -/
def interleavedPayPair (db : DB) (accNo : String) (a1 a2 : ℚ) :
    Option (DB × String × String) :=
  match findAccount db accNo with
  | none => none
  | some acctRead1 =>
    match findAccount db accNo with
    | none => none
    | some acctRead2 =>
      let declined1 := a1 > acctRead1.balance
      let db1 := if declined1 then db
                 else saveAccount db { acctRead1 with balance := acctRead1.balance - a1 }
      let declined2 := a2 > acctRead2.balance
      let db2 := if declined2 then db1
                 else saveAccount db1 { acctRead2 with balance := acctRead2.balance - a2 }
      some (db2, (if declined1 then "declined" else "approved"),
            (if declined2 then "declined" else "approved"))

/-- C4: the code's read-decide-write sequence is the naive unconditional
form (no lock, no compare-and-swap, no conditional store-side decrement),
and it loses money under the interleaving above: on a balance of `100`,
two concurrent payments of `80` are **both approved** although the balance
sustains only one, and the final stored balance is `20` — `160` was
approved against `100`.  This exhibits the correctness bug the
specification says must not be reproduced. -/
theorem C4_naive_race :
    ∃ dbf, interleavedPayPair demoDB "001-00000002" 80 80 =
        some (dbf, "approved", "approved") ∧
      getBalance dbf "001-00000002" = some 20 ∧ (80 + 80 : ℚ) > demoAccount2.balance := by
  have hfind : findAccount demoDB "001-00000002" = some demoAccount2 := rfl
  have hd : ¬ ((80 : ℚ) > demoAccount2.balance) := by norm_num [demoAccount2]
  refine ⟨saveAccount (saveAccount demoDB
      { demoAccount2 with balance := demoAccount2.balance - 80 })
      { demoAccount2 with balance := demoAccount2.balance - 80 }, ?_, ?_,
    by norm_num [demoAccount2]⟩
  · unfold interleavedPayPair
    rw [hfind]
    dsimp only
    simp only [if_neg hd]
  · have h1 : findAccount (saveAccount demoDB
        { demoAccount2 with balance := demoAccount2.balance - 80 }) "001-00000002" =
        some { demoAccount2 with balance := demoAccount2.balance - 80 } :=
      findAccount_saveAccount demoDB "001-00000002" demoAccount2 _ hfind rfl
    rw [getBalance_saveAccount _ "001-00000002" _
      { demoAccount2 with balance := demoAccount2.balance - 80 } h1 rfl]
    norm_num [demoAccount2]

/-- C5: a card payment whose card number resolves to a stored account but
whose expiry month, expiry year or CVV does not string-match never
succeeds and never mutates the store, regardless of funds, and it fails
with the authentication error — a different error (different constructor,
different message) from the not-found failure returned when no account
holds the card number. -/
theorem C5_card_auth_distinct :
    (∀ (recOk : Bool) (now : Nat) (req : CardPaymentRequest) (db : DB)
       (cn em ey cv : String) (acct : Account),
       req.cardNumber = some cn → req.expMonth = some em → req.expYear = some ey →
       req.cvv = some cv → req.amount.isSome →
       ¬ (cn = "" ∨ em = "" ∨ ey = "" ∨ cv = "") →
       findAccountByCard db (stripWhitespace cn) = some acct →
       (acct.card.expMonth ≠ em ∨ acct.card.expYear ≠ ey ∨ acct.card.cvv ≠ cv) →
       payByCard recOk now req db = (db, Except.error PayError.CardAuthenticationFailed)) ∧
    (∀ (recOk : Bool) (now : Nat) (req : CardPaymentRequest) (db : DB)
       (cn em ey cv : String),
       req.cardNumber = some cn → req.expMonth = some em → req.expYear = some ey →
       req.cvv = some cv → req.amount.isSome →
       ¬ (cn = "" ∨ em = "" ∨ ey = "" ∨ cv = "") →
       findAccountByCard db (stripWhitespace cn) = none →
       payByCard recOk now req db = (db, Except.error PayError.CardNotFound)) ∧
    PayError.CardAuthenticationFailed ≠ PayError.CardNotFound ∧
    PayError.CardAuthenticationFailed.message ≠ PayError.CardNotFound.message := by
  refine ⟨?_, ?_, by decide, by decide⟩
  · intro recOk now req db cn em ey cv acct hcn hem hey hcv hamt hne hfind hauth
    exact payByCard_authFail recOk now req db cn em ey cv acct
      hcn hem hey hcv hamt hne hfind hauth
  · intro recOk now req db cn em ey cv hcn hem hey hcv hamt hne hfind
    exact payByCard_notFound recOk now req db cn em ey cv hcn hem hey hcv hamt hne hfind

theorem C5_card_auth_distinct_witness :
    payByCard true 7 (demoCardReq "12" "28" "999" 4000) demoDB =
      (demoDB, Except.error PayError.CardAuthenticationFailed) ∧
    payByCard true 7
      { cardNumber := some "4000000000000000", expMonth := some "12", expYear := some "28",
        cvv := some "123", amount := some 4000, currency := none, description := none,
        merchantName := none } demoDB =
      (demoDB, Except.error PayError.CardNotFound) :=
  ⟨C5_card_auth_distinct.1 true 7 (demoCardReq "12" "28" "999" 4000) demoDB
     "4111111111111111" "12" "28" "999" demoAccount
     rfl rfl rfl rfl rfl (by decide) rfl (by decide),
   C5_card_auth_distinct.2.1 true 7 _ demoDB "4000000000000000" "12" "28" "123"
     rfl rfl rfl rfl rfl (by decide) rfl⟩

/-- C6: a failing ledger write inside `registerTransaction` (whose
`try/catch` captures and only logs the error) neither fails a payment
attempt nor alters its approved/declined outcome: the response and the
post-call accounts collection are identical whether the recorder's
persistence write succeeds or throws. -/
theorem C6_recorder_failure_swallowed :
    ∀ (recOk : Bool) (now : Nat) (db : DB) (req : PaymentRequest)
      (creq : CardPaymentRequest),
      ((payByAccountNumber recOk now req db).2 = (payByAccountNumber true now req db).2 ∧
       (payByAccountNumber recOk now req db).1.accounts =
         (payByAccountNumber true now req db).1.accounts) ∧
      ((payByCard recOk now creq db).2 = (payByCard true now creq db).2 ∧
       (payByCard recOk now creq db).1.accounts =
         (payByCard true now creq db).1.accounts) := by
  intro recOk now db req creq
  constructor
  · by_cases hvalid : ∃ accNo amount acct, req.accountNumber = some accNo ∧ accNo ≠ "" ∧
        req.amount = some amount ∧ findAccount db accNo = some acct ∧ 0 < amount
    · obtain ⟨accNo, amount, acct, haccno, hne, hamt, hfind, hpos⟩ := hvalid
      rw [payByAccountNumber_run recOk now req db accNo acct amount haccno hne hamt hfind hpos,
          payByAccountNumber_run true now req db accNo acct amount haccno hne hamt hfind hpos]
      exact ⟨rfl, by rw [registerTransaction_accounts, registerTransaction_accounts]⟩
    · obtain ⟨e, he⟩ := payByAccountNumber_invalid now req db hvalid
      rw [he recOk, he true]
      exact ⟨rfl, rfl⟩
  · by_cases hvalid : ∃ cn em ey cv amount acct, creq.cardNumber = some cn ∧
        creq.expMonth = some em ∧ creq.expYear = some ey ∧ creq.cvv = some cv ∧
        creq.amount = some amount ∧ ¬ (cn = "" ∨ em = "" ∨ ey = "" ∨ cv = "") ∧
        findAccountByCard db (stripWhitespace cn) = some acct ∧
        ¬ (acct.card.expMonth ≠ em ∨ acct.card.expYear ≠ ey ∨ acct.card.cvv ≠ cv) ∧
        0 < amount
    · obtain ⟨cn, em, ey, cv, amount, acct, hcn, hem, hey, hcv, hamt, hne, hfind, hauth, hpos⟩ :=
        hvalid
      rw [payByCard_run recOk now creq db cn em ey cv acct amount
            hcn hem hey hcv hamt hne hfind hauth hpos,
          payByCard_run true now creq db cn em ey cv acct amount
            hcn hem hey hcv hamt hne hfind hauth hpos]
      exact ⟨rfl, by rw [registerTransaction_accounts, registerTransaction_accounts]⟩
    · obtain ⟨e, he⟩ := payByCard_invalid now creq db hvalid
      rw [he recOk, he true]
      exact ⟨rfl, rfl⟩

theorem C6_recorder_failure_swallowed_witness :
    ((payByAccountNumber false 7 (demoPayReq 4000) demoDB).2 =
       (payByAccountNumber true 7 (demoPayReq 4000) demoDB).2 ∧
     (payByAccountNumber false 7 (demoPayReq 4000) demoDB).1.accounts =
       (payByAccountNumber true 7 (demoPayReq 4000) demoDB).1.accounts) ∧
    ((payByCard false 7 (demoCardReq "12" "28" "123" 4000) demoDB).2 =
       (payByCard true 7 (demoCardReq "12" "28" "123" 4000) demoDB).2 ∧
     (payByCard false 7 (demoCardReq "12" "28" "123" 4000) demoDB).1.accounts =
       (payByCard true 7 (demoCardReq "12" "28" "123" 4000) demoDB).1.accounts) :=
  C6_recorder_failure_swallowed false 7 demoDB (demoPayReq 4000)
    (demoCardReq "12" "28" "123" 4000)

/-- C7: a successful `adjustBalance` call on the `addBalance` path (with a
successful recorder write) appends exactly one ledger entry — credit when
the delta is non-negative, debit otherwise, amount the delta's magnitude,
source `manual_topup`, no `transactionId`, `balanceAfter` the updated
balance — while a successful absolute `balance` set appends none. -/
theorem C7_adjust_ledger :
    (∀ (accNo : String) (req : AdjustRequest) (db : DB) (acct0 : Account) (d : ℚ),
       findAccount db accNo = some acct0 → currencyBad req.currency = false →
       req.balance = none → req.addBalance = some d →
       (adjustBalance true accNo req db).2 =
         Except.ok { applyCurrency req.currency acct0 with
                       balance := (applyCurrency req.currency acct0).balance + d } ∧
       (adjustBalance true accNo req db).1.transactions =
         { accountNumber := acct0.accountNumber
           type := if 0 ≤ d then TxType.credit else TxType.debit
           amount := |d|
           currency := (applyCurrency req.currency acct0).currency
           description := "Ajuste manual de saldo (recarga ficticia)"
           source := "manual_topup"
           transactionId := none
           balanceAfter := (applyCurrency req.currency acct0).balance + d
           merchantName := "Povy Test" } :: db.transactions ∧
       getBalance (adjustBalance true accNo req db).1 accNo =
         some ((applyCurrency req.currency acct0).balance + d)) ∧
    (∀ (recOk : Bool) (accNo : String) (req : AdjustRequest) (db : DB)
       (acct0 : Account) (b : ℚ),
       findAccount db accNo = some acct0 → currencyBad req.currency = false →
       req.balance = some b → req.addBalance = none → 0 ≤ b →
       (adjustBalance recOk accNo req db).2 =
         Except.ok { applyCurrency req.currency acct0 with balance := b } ∧
       (adjustBalance recOk accNo req db).1.transactions = db.transactions) := by
  constructor
  · intro accNo req db acct0 d hfind hcur hbal hadd
    rw [adjustBalance_add_run true accNo req db acct0 d hfind hcur hbal hadd]
    refine ⟨rfl, ?_, ?_⟩
    · dsimp only
      rw [registerTransaction_ok_transactions, saveAccount_transactions]
    · dsimp only
      rw [getBalance_registerTransaction]
      exact getBalance_saveAccount db accNo acct0 _ hfind (applyCurrency_accountNumber _ _)
  · intro recOk accNo req db acct0 b hfind hcur hbal hadd hb
    rw [adjustBalance_set_run recOk accNo req db acct0 b hfind hcur hbal hadd hb]
    exact ⟨rfl, saveAccount_transactions db _⟩

theorem C7_adjust_ledger_witness :
    (adjustBalance true "001-00000002"
        { currency := none, balance := none, addBalance := some 250 } demoDB).1.transactions =
      { accountNumber := demoAccount2.accountNumber
        type := if (0 : ℚ) ≤ 250 then TxType.credit else TxType.debit
        amount := |(250 : ℚ)|
        currency := (applyCurrency none demoAccount2).currency
        description := "Ajuste manual de saldo (recarga ficticia)"
        source := "manual_topup"
        transactionId := none
        balanceAfter := (applyCurrency none demoAccount2).balance + 250
        merchantName := "Povy Test" } :: demoDB.transactions ∧
    getBalance (adjustBalance true "001-00000002"
        { currency := none, balance := none, addBalance := some 250 } demoDB).1
      "001-00000002" = some ((applyCurrency none demoAccount2).balance + 250) ∧
    (adjustBalance true "001-00000002"
        { currency := none, balance := some 500, addBalance := none } demoDB).1.transactions =
      demoDB.transactions :=
  ⟨((C7_adjust_ledger.1 "001-00000002"
      { currency := none, balance := none, addBalance := some 250 } demoDB demoAccount2 250
      rfl rfl rfl rfl).2.1),
   ((C7_adjust_ledger.1 "001-00000002"
      { currency := none, balance := none, addBalance := some 250 } demoDB demoAccount2 250
      rfl rfl rfl rfl).2.2),
   ((C7_adjust_ledger.2 true "001-00000002"
      { currency := none, balance := some 500, addBalance := none } demoDB demoAccount2 500
      rfl rfl rfl rfl (by norm_num)).2)⟩

/-- C8: an `adjustBalance` request on an existing account that supplies
both `balance` and `addBalance` fails validation — with the conflict error,
or with the currency validation error that precedes it — and the store is
returned untouched: no balance change is persisted and no ledger entry is
written. -/
theorem C8_conflict_rejected :
    ∀ (recOk : Bool) (accNo : String) (req : AdjustRequest) (db : DB) (acct0 : Account),
      findAccount db accNo = some acct0 → req.balance.isSome → req.addBalance.isSome →
      (adjustBalance recOk accNo req db).1 = db ∧
      ∃ e, (adjustBalance recOk accNo req db).2 = Except.error e ∧
        (e = PayError.ConflictBalanceFields ∨ e = PayError.UnsupportedCurrency) := by
  intro recOk accNo req db acct0 hfind hbal hadd
  rcases adjustBalance_conflict recOk accNo req db acct0 hfind hbal hadd with h | h
  · rw [h]
    exact ⟨rfl, PayError.ConflictBalanceFields, rfl, Or.inl rfl⟩
  · rw [h]
    exact ⟨rfl, PayError.UnsupportedCurrency, rfl, Or.inr rfl⟩

theorem C8_conflict_rejected_witness :
    (adjustBalance true "001-00000001"
        { currency := none, balance := some 1, addBalance := some 1 } demoDB).1 = demoDB ∧
    ∃ e, (adjustBalance true "001-00000001"
        { currency := none, balance := some 1, addBalance := some 1 } demoDB).2 =
          Except.error e ∧
      (e = PayError.ConflictBalanceFields ∨ e = PayError.UnsupportedCurrency) :=
  C8_conflict_rejected true "001-00000001"
    { currency := none, balance := some 1, addBalance := some 1 } demoDB demoAccount
    rfl rfl rfl

theorem sliceLast4_length (s : String) (h : 4 ≤ s.length) : (sliceLast4 s).length = 4 := by
  rcases s with ⟨l⟩
  dsimp only [sliceLast4, String.length] at h ⊢
  rw [List.length_drop]
  omega

theorem sliceLast4_suffix (s : String) : List.IsSuffix (sliceLast4 s).data s.data :=
  List.drop_suffix _ _

/-- C9: a successful card payment reports `cardLast4` as the trailing four
characters of the stored card number — exactly 4 characters whenever the
stored number has at least 4 — and never the full card number (whenever the
stored number is longer than 4); the response record
(`CardPaymentResult`) carries no field for the full number, the expiry
month/year, or the CVV. -/
theorem C9_card_last4 :
    ∀ (recOk : Bool) (now : Nat) (req : CardPaymentRequest) (db : DB)
      (cn em ey cv : String) (acct : Account) (amount : ℚ),
      req.cardNumber = some cn → req.expMonth = some em → req.expYear = some ey →
      req.cvv = some cv → req.amount = some amount →
      ¬ (cn = "" ∨ em = "" ∨ ey = "" ∨ cv = "") →
      findAccountByCard db (stripWhitespace cn) = some acct →
      ¬ (acct.card.expMonth ≠ em ∨ acct.card.expYear ≠ ey ∨ acct.card.cvv ≠ cv) →
      0 < amount →
      ∃ r, (payByCard recOk now req db).2 = Except.ok r ∧
        r.cardLast4 = sliceLast4 acct.card.cardNumber ∧
        List.IsSuffix r.cardLast4.data acct.card.cardNumber.data ∧
        (4 ≤ acct.card.cardNumber.length → r.cardLast4.length = 4) ∧
        (4 < acct.card.cardNumber.length → r.cardLast4 ≠ acct.card.cardNumber) := by
  intro recOk now req db cn em ey cv acct amount hcn hem hey hcv hamt hne hfind hauth hpos
  rw [payByCard_run recOk now req db cn em ey cv acct amount
    hcn hem hey hcv hamt hne hfind hauth hpos]
  refine ⟨_, rfl, rfl, sliceLast4_suffix _, fun h4 => sliceLast4_length _ h4, fun h4 => ?_⟩
  intro heq
  have hl := sliceLast4_length acct.card.cardNumber (le_of_lt h4)
  have heq2 : sliceLast4 acct.card.cardNumber = acct.card.cardNumber := heq
  rw [heq2] at hl
  omega

theorem C9_card_last4_witness :
    ∃ r, (payByCard true 7 (demoCardReq "12" "28" "123" 4000) demoDB).2 = Except.ok r ∧
      r.cardLast4 = sliceLast4 demoAccount.card.cardNumber ∧
      List.IsSuffix r.cardLast4.data demoAccount.card.cardNumber.data ∧
      (4 ≤ demoAccount.card.cardNumber.length → r.cardLast4.length = 4) ∧
      (4 < demoAccount.card.cardNumber.length → r.cardLast4 ≠ demoAccount.card.cardNumber) :=
  C9_card_last4 true 7 (demoCardReq "12" "28" "123" 4000) demoDB
    "4111111111111111" "12" "28" "123" demoAccount 4000
    rfl rfl rfl rfl rfl (by decide) rfl (by decide) (by norm_num)

/-- C10: all whitespace is stripped from the supplied card number before
the account lookup (line 370), so two card-payment requests that agree on
every field except whitespace inside the card number — and whose stripped
card number is non-empty, so neither is rejected as missing — behave
identically: same lookup, same decision or error, same final store. -/
theorem C10_whitespace_stripped :
    ∀ (recOk : Bool) (now : Nat) (db : DB) (req1 req2 : CardPaymentRequest)
      (c1 c2 : String),
      req1.cardNumber = some c1 →
      req2 = { req1 with cardNumber := some c2 } →
      stripWhitespace c1 = stripWhitespace c2 →
      stripWhitespace c1 ≠ "" →
      payByCard recOk now req1 db = payByCard recOk now req2 db := by
  intro recOk now db req1 req2 c1 c2 hcn hreq hs hne
  have hc1 : c1 ≠ "" := by
    rintro rfl
    exact hne rfl
  have hc2 : c2 ≠ "" := by
    rintro rfl
    exact hne hs
  obtain ⟨rcn, rem, rey, rcv, ramt, rcur, rdesc, rmerch⟩ := req1
  dsimp only at hcn
  subst hreq
  subst hcn
  unfold payByCard
  dsimp only
  rcases rem with _ | em
  · rfl
  rcases rey with _ | ey
  · rfl
  rcases rcv with _ | cv
  · rfl
  rcases ramt with _ | amount
  · rfl
  dsimp only
  simp only [eq_false hc1, eq_false hc2, false_or]
  rw [hs]

theorem C10_whitespace_stripped_witness :
    payByCard true 7
      { cardNumber := some "4111 1111 1111 1111", expMonth := some "12",
        expYear := some "28", cvv := some "123", amount := some 4000,
        currency := none, description := none, merchantName := none } demoDB =
    payByCard true 7
      { cardNumber := some "4111111111111111", expMonth := some "12",
        expYear := some "28", cvv := some "123", amount := some 4000,
        currency := none, description := none, merchantName := none } demoDB :=
  C10_whitespace_stripped true 7 demoDB _ _ "4111 1111 1111 1111" "4111111111111111"
    rfl rfl rfl (by decide)

end Povy
